import Mathlib

/-!
Shallow embedding of the Tally webhook processor (`src/main.py`).

The embedding models the submission lifecycle controller: the Supabase table
`form_AI_DB` is a list of rows, the webhook handler `handle_tally_webhook`
threads that table, and each background generation task
`generate_gemini_response` is a function of the provider behaviour (an oracle
`String → ProviderOutcome` standing for `model.generate_content_async`) and a
store-failure oracle `Nat → Bool` saying which write attempts raise.
Python exceptions are modelled with `Except PyExc`; a `try/except` block is a
`match` on that value.
-/

/-- Scalar Python values occurring as Tally field values or as list elements. -/
inductive Scalar where
  | s (v : String)
  | i (v : Int)
  | b (v : Bool)
deriving DecidableEq

/-- A Tally field value: `None`, a scalar, or a list of scalars. -/
inductive FieldValue where
  | vnull
  | scalar (v : Scalar)
  | list (vs : List Scalar)
deriving DecidableEq

/-- Python `str` on a scalar: `str(5) = "5"`, `str(True) = "True"`. -/
def pyStrScalar : Scalar → String
  | .s v => v
  | .i v => toString v
  | .b true => "True"
  | .b false => "False"

/-- Python `.strip()`: drop leading and trailing whitespace. Implemented
structurally over the character list (rather than with the byte-position
loops of `String.trim`) so that it evaluates inside the kernel; on the
whitespace characters occurring here the two agree. -/
def pyStrip (s : String) : String :=
  String.mk (((s.data.dropWhile Char.isWhitespace).reverse.dropWhile
    Char.isWhitespace).reverse)

/-- Escaping used by the CPython string repr: backslash, the chosen quote
character, and the common control characters. -/
def pyReprEscape (q : Char) (s : String) : String :=
  String.join (s.data.map fun c =>
    if c = '\\' then "\\\\"
    else if c = q then "\\" ++ q.toString
    else if c = '\n' then "\\n"
    else if c = '\t' then "\\t"
    else if c = '\x0d' then "\\r"
    else c.toString)

/-- CPython repr of a string: single quotes, switching to double quotes when the
string holds a single quote but no double quote. -/
def pyReprStr (s : String) : String :=
  if (s.data.any fun c => c == '\x27') && !(s.data.any fun c => c == '"') then
    "\"" ++ pyReprEscape '"' s ++ "\""
  else
    "\x27" ++ pyReprEscape '\x27' s ++ "\x27"

/-- CPython repr of a scalar, as used for the elements when a list is printed. -/
def pyReprScalar : Scalar → String
  | .s v => pyReprStr v
  | .i v => toString v
  | .b true => "True"
  | .b false => "False"

/-- Python `str` of a whole field value: `str(None) = "None"`, and `str` of a
list is its repr, with the elements shown by their repr. -/
def pyStrValue : FieldValue → String
  | .vnull => "None"
  | .scalar v => pyStrScalar v
  | .list vs => "[" ++ String.intercalate ", " (vs.map pyReprScalar) ++ "]"

/-- A Tally option, resolving an option id to display text (`TallyOption`). -/
structure TallyOption where
  id : String
  text : String
deriving DecidableEq

/-- One submitted form field (`TallyField`). -/
structure TallyField where
  key : String
  label : Option String
  value : FieldValue
  type : String
  options : Option (List TallyOption)
deriving DecidableEq

/-- The `data` object of a webhook delivery (`TallyResponseData`). -/
structure TallyResponseData where
  responseId : String
  submissionId : String
  fields : List TallyField
deriving DecidableEq

/-- A full webhook delivery (`TallyWebhookPayload`). -/
structure TallyWebhookPayload where
  eventId : String
  eventType : String
  data : TallyResponseData
deriving DecidableEq

/-- Status constant from line 64 of the source. -/
def STATUS_PROCESSING : String := "processing"

/-- Status constant from line 65 of the source. -/
def STATUS_SUCCESS : String := "success"

/-- Status constant from line 66 of the source. -/
def STATUS_ERROR : String := "error"

/-- The reserved result marker from line 68 of the source. -/
def GEMINI_ERROR_MARKER : String := "ERROR_PROCESSING_GEMINI"

/-- Python exceptions the embedded code can raise. -/
inductive PyExc where
  | typeError
  | indexError
  | attributeError
  | storeError (msg : String)
  | providerError (msg : String)
deriving DecidableEq

/-- The text that `str(e)` interpolates into f-strings for each exception. -/
def pyStrExc : PyExc → String
  | .typeError => "list indices must be integers or slices, not str"
  | .indexError => "list index out of range"
  | .attributeError => "\x27NoneType\x27 object has no attribute \x27strip\x27"
  | .storeError msg => msg
  | .providerError msg => msg

/-- The dict comprehension plus lookup on lines 111-112:
`{opt.id: opt.text for opt in options}` keeps the last occurrence of a
duplicate id, and `.get(v, v)` falls back to the raw element; a non-string
element can never match a string key. -/
def resolveOption (opts : List TallyOption) : Scalar → Scalar
  | .s v =>
    match opts.reverse.find? (fun o => o.id == v) with
    | some o => .s o.text
    | none => .s v
  | v => v

/-- The string content of a scalar, when it is a string. -/
def scalarAsStr : Scalar → Option String
  | .s v => some v
  | _ => none

/-- Python `sep.join(xs)`: raises `TypeError` when some element is not a string. -/
def pyJoinStrs (sep : String) (xs : List Scalar) : Except PyExc String :=
  match xs.mapM scalarAsStr with
  | some ss => .ok (String.intercalate sep ss)
  | none => .error .typeError

/-- One iteration of the loop of `summarize_payload` (lines 106-116 of the
source): a falsy label falls back to the key, a list with a truthy (non-empty)
option set is resolved element by element, anything else is shown by `str`. -/
def renderSummaryField (f : TallyField) : Except PyExc String :=
  let label := match f.label with
    | some l => if l == "" then f.key else l
    | none => f.key
  let valueStr : Except PyExc String :=
    match f.value, f.options with
    | .list vs, some opts =>
      if opts.isEmpty then .ok (pyStrValue (.list vs))
      else pyJoinStrs ", " (vs.map (resolveOption opts))
    | v, _ => .ok (pyStrValue v)
  match valueStr with
  | .ok s => .ok ("- " ++ label ++ ": " ++ s)
  | .error e => .error e

/-- `summarize_payload` (lines 103-117 of the source). -/
def summarize_payload (payload : TallyWebhookPayload) : Except PyExc String :=
  match payload.data.fields.mapM renderSummaryField with
  | .ok ls => .ok (String.intercalate "\n" ("Respuestas:" :: ls))
  | .error e => .error e

/-- `detect_form_type` (lines 119-125 of the source): on a nonempty field list
it reads `fields[2].label` (an `IndexError` when fewer than three fields
exist) and calls `.strip()` on it (an `AttributeError` when the label is
`None`); an empty field list falls through to `"Unknown"`. -/
def detect_form_type (payload : TallyWebhookPayload) : Except PyExc String :=
  if payload.data.fields.isEmpty then .ok "Unknown"
  else
    match payload.data.fields.get? 2 with
    | none => .error .indexError
    | some f =>
      match f.label with
      | none => .error .attributeError
      | some l =>
        if pyStrip l == "¿De qué sector es tu empresa o grupo?" then .ok "CFO_Form"
        else .ok "Unknown"

/-- One iteration of the field loop shared verbatim by all three branches of
`generate_prompt` (lines 202-217, 292-307, 316-331 of the source). The
`try` around the list join cannot fail since `map(str, ...)` makes every
element a string. Option ids are NOT resolved here. -/
def renderPromptField (f : TallyField) : String :=
  let label_str := match f.label with
    | none => "null"
    | some l => pyStrip l
  let value_str := match f.value with
    | .list vs => "\"" ++ String.intercalate "," (vs.map pyStrScalar) ++ "\""
    | .vnull => "null"
    | .scalar v => pyStrScalar v
  "Pregunta: " ++ label_str ++ " - Respuesta: " ++ value_str
/-- The prompt template literal beginning at line 153 of the source. -/
def cfoTemplate : String :=
  "# Prompt: Analizar Formulario de CFO para Resumen de Seguimiento

                        ## **Tu Rol y Objetivo:**

                        Actúas como un(a) **Estratega Financiero(a) Sénior** en **[Nombre de tu Empresa]**. Tu especialidad es diagnosticar rápidamente los desafíos operativos y financieros que enfrentan los CFOs y destacar caminos claros hacia la mejora.

                        Tu objetivo es analizar las siguientes respuestas de un formulario de diagnóstico completado por un(a) CFO. Basado en sus respuestas, debes generar un resumen personalizado y conciso en **formato Markdown**. Este resumen debe cumplir con los siguientes puntos:

                        1.  **Reconocer** su contribución y demostrar que hemos comprendido sus problemas clave.
                        2.  **Presentar** sus desafíos como oportunidades solucionables y estratégicas.
                        3.  **Posicionar** sutilmente a **[Nombre de tu Empresa]** como el socio experto que puede guiarles.
                        4.  **Concluir** con una llamada a la acción potente y alentadora para que se pongan en contacto con nosotros.

                        ## **Tono:**

                        Mantén un tono **profesional, seguro y servicial**. Actúas como un colega experto que ofrece una perspectiva valiosa, no como un vendedor. Sé directo(a) pero empático(a), mostrando un entendimiento genuino de su rol y presiones.

                        ## **Estructura del Resultado (Usa este formato Markdown exacto, --- representa un divider):**

                        Por favor, genera el resultado utilizando la siguiente estructura, incluyendo los emojis y el formato en negrita (adapta todos los datos a los del formulario y no escribas nada del estilo: De acuerdo, aquí tienes el resumen del análisis del formulario del CFO, listo para ser usado:):

                        ### 🚀 Gracias: Un Análisis Rápido de tu Situación
                        Agradecemos tu tiempo y transparencia al compartir tus desafíos. Identificamos una clara oportunidad para optimizar tus procesos, especialmente en la gestión de la tesorería y la implementación de un sistema EPM/CPM, que impulse la eficiencia y la toma de decisiones estratégicas en Banca.

                        ---

                        ### 🔑 Desafíos Clave que Hemos Identificado
                        - A pesar de tener un cierre de período rápido (4 días) y una participación alta (10/10) en la definición tecnológica, la valoración (5/10) de la usabilidad del ERP y la necesidad de realizar \"cuadres\" en Excel sugieren oportunidades de mejora en la **integración y usabilidad del sistema**, impactando la eficiencia del equipo.
                        - La valoración (6/10) del nivel de automatización en el cierre y reporting, junto con la ausencia de un software de EPM/CPM y la gestión manual del flujo de caja, indican una necesidad de **automatizar los procesos de planificación financiera** y presupuestación, liberando recursos para análisis estratégico.
                        - La solicitud de \"más inteligencia\" para el sistema de reporting señala una oportunidad de mejorar la **capacidad analítica** y el acceso a datos oportunos (7/10 de autonomía del equipo), permitiendo decisiones basadas en datos más rápidas y efectivas.
                        - La mención de SOX como tema relevante de seguridad y control de riesgos refuerza la necesidad de **robustecer las políticas y controles de seguridad** de la información para proteger los datos financieros sensibles y asegurar el cumplimiento normativo.
                        
                        ---

                        ### 💡 Cómo Podemos Ayudar: Tu Camino a Seguir
                        - **Automatizar tu Planificación Financiera:** Implementamos soluciones de EPM/CPM a medida para automatizar y centralizar tus procesos de presupuestación, forecasting y gestión de la tesorería, permitiéndote reaccionar rápidamente a los cambios del mercado y optimizar el flujo de caja.
                        - **Integrar y Mejorar la Usabilidad de tus Sistemas:** Conectamos tus datos de diversas fuentes (ERP, bancos, etc.) en una única plataforma, mejorando la usabilidad de tus sistemas y eliminando la necesidad de recurrir a Excel para tareas como los \"cuadres\".
                        - **Potenciar el Análisis de Datos:** Agregamos capacidades de Business Intelligence avanzadas a tu sistema de reporting, permitiendo a tu equipo acceder a datos oportunos y tomar decisiones basadas en datos de manera más rápida y efectiva.
                        - **Fortalecer tu Cumplimiento SOX:** Evaluamos y reforzamos tus políticas de seguridad de la información, asegurando el cumplimiento de las regulaciones SOX y protegiendo tus datos financieros más sensibles.
                        
                        ---

                        ### 📞 Hablemos de tu Estrategia
                        Estos son desafíos comunes pero críticos en la ruta del crecimiento, especialmente en el sector bancario. La buena noticia es que tienen solución con el enfoque adecuado.
                        Para empezar a diseñar un plan de acción concreto para tu equipo, simplemente pulsa el botón **\x27Contactar con RSM\x27** y envíanos un mensaje. Estaremos encantados de analizar los siguientes pasos contigo.

                        ## **Datos del Formulario del CFO para Analizar:**"

/-- The prompt template literal beginning at line 223 of the source. -/
def consultingTemplate : String :=
  "# Prompt para Gemini: Generar Briefing Interno de Oportunidad de Venta (Análisis de Formulario de CFO)

                        ## **Tu Rol y Objetivo:**

                        Actúas como un(a) **Analista Estratégico de Cuentas** para un equipo de consultoría tecnológica. Tu especialidad es destilar la información de prospectos (CFOs) en un briefing interno accionable.

                        Tu objetivo es analizar las respuestas del formulario de un(a) CFO y generar un **resumen estratégico interno en formato Markdown**. Este documento preparará al equipo de ventas/consultoría para la primera llamada, destacando los puntos de dolor, los ganchos de venta y la estrategia de aproximación.

                        ## **Tono:**

                        **Directo, analítico y estratégico.** Utiliza un lenguaje de negocio claro y orientado a la acción. El objetivo no es vender al CFO, sino **armar al equipo interno** con la inteligencia necesaria para tener éxito. Cero \"fluff\" de marketing.

                        ## **Estructura del Resultado (Usa este formato Markdown exacto --- representa un divider):**

                        Por favor, genera el resultado utilizando la siguiente estructura, incluyendo los emojis y el formato en negrita (adapta todos los datos a los del formulario(adapta todos los datos a los del formulario y no escribas nada del estilo de: De acuerdo, aquí tienes el resumen del análisis del formulario del CFO, listo para ser usado:):):

                        ### 📋 Briefing de Oportunidad: [Industria del Cliente] - Análisis del CFO
                        -   **Preparado para:** Equipo de Consulting
                        -   **Fuente:** Formulario de Diagnóstico
                        -   **Nivel de Oportunidad:** Alto
                        
                        ---

                        ### 👤 Perfil del Prospecto (CFO)

                        -   **Industria:** Banca
                        -   **Rol:** CFO
                        -   **Tiempo de Cierre de Período:** 4 días (Rápido, indica eficiencia en ciertas áreas).
                        -   **Participación en Definición Tecnológica:** 10/10 (Decisor clave).
                        -   **Valoración Usabilidad ERP:** 5/10 (Punto de dolor significativo).
                        -   **Autonomía del Equipo (Datos):** 7/10 (Bueno, pero con margen de mejora).
                        -   **Nivel de Automatización (Cierre/Reporting):** 6/10 (Oportunidad clara).
                        -   **Tema de Seguridad Relevante:** Cumplimiento SOX.
                        
                        ---

                        ### 🎯 Puntos de Dolor y Ganchos de Venta

                        -   **Fricción con el ERP actual:** A pesar de un cierre rápido, la baja usabilidad (5/10) y el uso de Excel para \"cuadres\" es un **gancho claro** para nuestra solución de integración y automatización. El equipo es eficiente *a pesar* de sus herramientas, no gracias a ellas.
                        -   **Dependencia de Procesos Manuales:** La ausencia de un software EPM/CPM y la gestión manual del flujo de caja son ineficiencias críticas. Esto representa nuestro **principal ángulo de venta**: la automatización de la planificación financiera para liberar tiempo estratégico.
                        -   **Necesidad de Inteligencia de Negocio:** La petición explícita de \"más inteligencia\" para el reporting es una puerta de entrada directa para nuestras capacidades de BI. Quieren pasar de reportar el pasado a predecir el futuro.
                        -   **Presión Regulatoria (SOX):** La mención de SOX es un gancho de alto valor. Podemos posicionar nuestras soluciones no solo como una mejora de eficiencia, sino como una **herramienta para robustecer el control interno** y asegurar el cumplimiento.
                        
                        ---

                        ### 💡 Ángulo de Venta y Solución Propuesta

                        -   **Problema:** Procesos manuales y sistemas poco usables que frenan a un equipo eficiente.
                            -   **Nuestra Solución:** Implementación de una plataforma de EPM/CPM que centralice la planificación, presupuestación y forecasting, integrada con su ERP para eliminar los \"cuadres\" en Excel.
                            -   **Argumento de Venta:** \"Te ayudamos a que tus herramientas estén al nivel de tu equipo, automatizando tareas de bajo valor para que puedan enfocarse en el análisis estratégico que la dirección demanda\".
                        -   **Problema:** Reporting básico que no ofrece insights accionables.
                            -   **Nuestra Solución:** Desarrollo de dashboards de Business Intelligence a medida, conectados en tiempo real a sus fuentes de datos.
                            -   **Argumento de Venta:** \"Transforma tu reporting de un simple espejo retrovisor a un GPS financiero que guíe tus decisiones futuras\".
                        -   **Problema:** Riesgo de cumplimiento y seguridad (SOX).
                            -   **Nuestra Solución:** Evaluación y fortalecimiento de controles de acceso y políticas de seguridad dentro de la nueva plataforma.
                            -   **Argumento de Venta:** \"Gana eficiencia y, al mismo tiempo, blinda tu operación financiera para cumplir con SOX con total tranquilidad\".
                        
                        ---

                        ### ⚠️ Riesgos Potenciales y Próximos Pasos

                        -   **Riesgos a Considerar:**
                            -   Mencionar riesgos a considerar
                        -   **Próximos Pasos Recomendados:**
                            1.  Mencionar próximos pasos recomendados

                        ## **Datos del Formulario del CFO para Analizar:**"


/-- The two fixed parts the generic branch of `generate_prompt` starts from
(line 313 of the source). -/
def genericPromptParts : List String :=
  ["Analiza la siguiente respuesta de encuesta de un CFO\n",
   "Proporciona un resumen o conclusión en formato markdown:\n\n"]

/-- The initial `prompt_parts` list chosen by the mode dispatch of
`generate_prompt` (lines 149, 219, 309 of the source). -/
def promptPreambleParts (mode : String) : List String :=
  if mode == "CFO_Form" then [cfoTemplate]
  else if mode == "consulting" then [consultingTemplate]
  else genericPromptParts

/-- `generate_prompt` (lines 146-334 of the source): the chosen preamble,
followed by one `Pregunta/Respuesta` segment per field in insertion order,
concatenated by `"".join` with no separator and no trailing processing.
The `submission_id` argument is used only for logging and does not influence
the output. -/
def generate_prompt (payload : TallyWebhookPayload) (_submission_id : String)
    (mode : String) : String :=
  String.join (promptPreambleParts mode ++ payload.data.fields.map renderPromptField)

/-- One row of the Supabase table `form_AI_DB`, with the columns this program
reads and writes. -/
structure Row where
  submission_id : String
  status : String
  result_client : Option String
  result_consulting : Option String
  user_responses : String
  form_type : String
deriving DecidableEq

/-- A partial update payload for `.update({...})`: `none` leaves a column
untouched. Every update in the source also rewrites `submission_id` to the
value it filters on, which is a no-op on the matched rows. -/
structure Patch where
  status : String
  result_client : Option (Option String) := none
  result_consulting : Option (Option String) := none
deriving DecidableEq

/-- Apply an update payload to one row. -/
def applyPatch (p : Patch) (r : Row) : Row :=
  { r with
    status := p.status
    result_client := p.result_client.getD r.result_client
    result_consulting := p.result_consulting.getD r.result_consulting }

/-- `.update(patch).eq("submission_id", sid).execute()`: updates every row
whose `submission_id` matches, leaving the others untouched. -/
def update_eq (table : List Row) (sid : String) (p : Patch) : List Row :=
  table.map fun r => if r.submission_id == sid then applyPatch p r else r

/-- `.select("*").eq("submission_id", sid).execute().data`: the matching rows,
in table order, as the list held by the `data` attribute of the response. -/
def selectRows (table : List Row) (sid : String) : List Row :=
  table.filter fun r => r.submission_id == sid

/-- The shape of a Gemini response object as lines 345-358 of the source probe
it: an optional `.text` attribute (absent or `None` collapses to `none`) and an
optional `.parts` list whose members may or may not carry a `.text`. -/
structure GeminiResponse where
  text : Option String := none
  parts : Option (List (Option String)) := none
deriving DecidableEq

/-- One behaviour of `model.generate_content_async`: a response object, or a
raised exception with message `msg`. -/
inductive ProviderOutcome where
  | response (r : GeminiResponse)
  | raise (msg : String)
deriving DecidableEq

/-- The `parts` fallback of lines 350-356 of the source: concatenate the text
of the parts that have one; an empty concatenation is discarded. -/
def extractParts : Option (List (Option String)) → Option String
  | some ps =>
    let s := String.join (ps.filterMap id)
    if s != "" then some s else none
  | none => none

/-- Lines 345-358 of the source: the `result_text` extracted from a response;
`none` when the response carries no usable text. -/
def extract_result_text (r : GeminiResponse) : Option String :=
  match r.text with
  | some s => if s != "" then some s else extractParts r.parts
  | none => extractParts r.parts

/-- Update payload of the consulting-variant success write (lines 365-369). -/
def succPatchConsulting (text : String) : Patch :=
  { status := STATUS_SUCCESS, result_consulting := some (some text) }

/-- Update payload of the client-variant success write (lines 376-380). -/
def succPatchClient (text : String) : Patch :=
  { status := STATUS_SUCCESS, result_client := some (some text) }

/-- Update payload of the empty-response write (lines 388-393): the reserved
marker goes into BOTH result slots. -/
def markerPatch : Patch :=
  { status := STATUS_ERROR
    result_client := some (some GEMINI_ERROR_MARKER)
    result_consulting := some (some GEMINI_ERROR_MARKER) }

/-- Update payload of the exception write (lines 402-407): the interpolated
diagnostic goes into BOTH result slots. -/
def exceptionPatch (e : PyExc) : Patch :=
  { status := STATUS_ERROR
    result_client := some (some ("Error interno: " ++ pyStrExc e))
    result_consulting := some (some ("Error interno: " ++ pyStrExc e)) }

/-- The result of one background-task run: the table afterwards and how many
terminal-write attempts were made against the store. -/
structure GenResult where
  table : List Row
  writeAttempts : Nat
deriving DecidableEq

/-- An `update().execute()` wrapped in its own `try/except` that only logs:
when the store raises (the oracle `fail` says whether attempt `k` does), the
table is left unchanged. -/
def tryUpdate (fail : Nat → Bool) (k : Nat) (table : List Row) (sid : String)
    (p : Patch) : List Row :=
  if fail k then table else update_eq table sid p

/-- The body of the outer `try` of `generate_gemini_response` (lines 341-396 of
the source): the provider call can raise out of it, while every store write
inside is individually guarded by its own `try/except` that only logs. -/
def geminiTryBody (sid prompt prompt_type : String)
    (gemini : String → ProviderOutcome) (fail : Nat → Bool) (table : List Row) :
    Except PyExc GenResult :=
  match gemini prompt with
  | .raise msg => .error (.providerError msg)
  | .response r =>
    match extract_result_text r with
    | some text =>
      if prompt_type == "consulting" then
        .ok ⟨tryUpdate fail 0 table sid (succPatchConsulting text), 1⟩
      else
        .ok ⟨tryUpdate fail 0 table sid (succPatchClient text), 1⟩
    | none => .ok ⟨tryUpdate fail 0 table sid markerPatch, 1⟩

/-- `generate_gemini_response` (lines 337-412 of the source): the outer
`except` (lines 398-410) catches whatever the body raised and makes one
guarded error write of its own; nothing after it can raise. -/
def generate_gemini_response (sid prompt prompt_type : String)
    (gemini : String → ProviderOutcome) (fail : Nat → Bool) (table : List Row) :
    Except PyExc GenResult :=
  match geminiTryBody sid prompt prompt_type gemini fail table with
  | .ok res => .ok res
  | .error e => .ok ⟨tryUpdate fail 0 table sid (exceptionPatch e), 1⟩

/-- The table and attempt count after one run of the background task. The
`.error` branch is unreachable because the outer `except` catches everything. -/
def runVariant (sid prompt prompt_type : String)
    (gemini : String → ProviderOutcome) (fail : Nat → Bool) (table : List Row) :
    GenResult :=
  match generate_gemini_response sid prompt prompt_type gemini fail table with
  | .ok res => res
  | .error _ => ⟨table, 0⟩

/-- The value the webhook endpoint answers with: the JSON bodies of the
200 responses, or the status code of an `HTTPException`. -/
inductive AcceptResult where
  | ok (message : String)
  | httpError (code : Nat)
deriving DecidableEq

/-- One task handed to `background_tasks.add_task`: the arguments of a pending
`generate_gemini_response` call. -/
structure BgTask where
  submission_id : String
  prompt : String
  prompt_type : String
deriving DecidableEq

/-- The `try` body of `handle_tally_webhook` (lines 423-470 of the source).
`data.data` is a list of rows (cf. `assert len(data.data) > 0` in
`supabase_test.py` and the commented-out handler, which reads
`data.data[0]["status"]`), so line 429 subscripts a list with the string key
`"status"` and raises `TypeError` whenever a row for this submission already
exists; the comparisons against the stored status are unreachable. On the
fresh path the record is inserted with status `processing` and both result
slots null, and the two generation tasks are enqueued. -/
def webhookTryBody (table : List Row) (payload : TallyWebhookPayload) :
    Except PyExc (AcceptResult × List Row × List BgTask) :=
  let sid := payload.data.submissionId
  let rows := selectRows table sid
  if rows.isEmpty then
    match detect_form_type payload with
    | .error e => .error e
    | .ok form_type =>
      match summarize_payload payload with
      | .error e => .error e
      | .ok response =>
        let row : Row := { submission_id := sid, status := STATUS_PROCESSING, result_client := none, result_consulting := none, user_responses := response, form_type := form_type }
        let table2 := table ++ [row]
        let prompt_cliente := generate_prompt payload sid form_type
        let prompt_consulting := generate_prompt payload sid "consulting"
        .ok (.ok "Processing started", table2,
          [⟨sid, prompt_cliente, form_type⟩, ⟨sid, prompt_consulting, "consulting"⟩])
  else
    .error .typeError

/-- `handle_tally_webhook` (lines 416-475 of the source): the catch-all
`except` turns any raise into an HTTP 500. Every raise in the body happens
before the insert, so on that path the table is unchanged and no background
task has been scheduled. -/
def handle_tally_webhook (table : List Row) (payload : TallyWebhookPayload) :
    AcceptResult × List Row × List BgTask :=
  match webhookTryBody table payload with
  | .ok res => res
  | .error _ => (.httpError 500, table, [])

/-- One atomic effect on the store: a webhook delivery, or the completion of
one background generation task. -/
inductive Event where
  | accept (payload : TallyWebhookPayload)
  | task (sid prompt prompt_type : String) (gemini : String → ProviderOutcome)
      (fail : Nat → Bool)

/-- The table after one event. -/
def stepTable (table : List Row) : Event → List Row
  | .accept payload => (handle_tally_webhook table payload).2.1
  | .task sid prompt prompt_type gemini fail =>
    (runVariant sid prompt prompt_type gemini fail table).table

/-- The table reached from an empty store by a sequence of events. -/
def runEvents (events : List Event) : List Row :=
  events.foldl stepTable []

/-- A text field with the given key, label and scalar string value. -/
def sampleField (k labelText valueText : String) : TallyField :=
  { key := k, label := some labelText, value := .scalar (.s valueText),
    type := "INPUT_TEXT", options := none }

/-- The `data` object of a well-formed three-field submission `sub-1`. -/
def sampleData : TallyResponseData :=
  { responseId := "resp-1", submissionId := "sub-1",
    fields := [sampleField "f1" "Sector" "Banking",
               sampleField "f2" "Automation level" "6",
               sampleField "f3" "Empresa" "RSM"] }

/-- A well-formed three-field submission with identifier `sub-1`. -/
def samplePayload : TallyWebhookPayload :=
  { eventId := "ev-1", eventType := "FORM_RESPONSE", data := sampleData }

/-- A freshly inserted processing record for `sub-1`. -/
def row0 : Row :=
  { submission_id := "sub-1", status := STATUS_PROCESSING, result_client := none,
    result_consulting := none, user_responses := "resumen", form_type := "Unknown" }

/-- A provider that answers every prompt with the non-empty text `t`. -/
def geminiText (t : String) : String → ProviderOutcome :=
  fun _ => .response { text := some t }

/-- A provider whose responses carry no usable text at all. -/
def geminiEmpty : String → ProviderOutcome :=
  fun _ => .response { text := none, parts := none }

/-- A provider that raises a transport exception on every call. -/
def geminiRaise (msg : String) : String → ProviderOutcome :=
  fun _ => .raise msg

/-- A store on which every write attempt succeeds. -/
def noFail : Nat → Bool := fun _ => false

/-- A store on which every write attempt raises. -/
def failAll : Nat → Bool := fun _ => true

/-- C9: `generate_prompt` is referentially transparent: the output depends only
on the payload and the mode. In particular the `submission_id` argument of the
source function feeds only log statements and never influences the produced
prompt, so two calls with identical `(Submission, variant)` input produce
byte-identical output strings. -/
theorem generate_prompt_deterministic (payload : TallyWebhookPayload)
    (sid₁ sid₂ mode : String) :
    generate_prompt payload sid₁ mode = generate_prompt payload sid₂ mode := rfl

/-- C10: the generation task body returns normally for every provider behaviour
(success, empty response, or raised exception) and every store behaviour: each
store write sits in its own logging `try/except`, and the outer `except`
catches whatever the `try` body raises, so no exception propagates out of the
background task to its scheduler. -/
theorem generate_gemini_response_never_raises (sid prompt prompt_type : String)
    (gemini : String → ProviderOutcome) (fail : Nat → Bool) (table : List Row) :
    ∃ res, generate_gemini_response sid prompt prompt_type gemini fail table
      = .ok res := by
  unfold generate_gemini_response
  cases h : geminiTryBody sid prompt prompt_type gemini fail table with
  | ok res => exact ⟨res, rfl⟩
  | error e =>
    exact ⟨⟨tryUpdate fail 0 table sid (exceptionPatch e), 1⟩, rfl⟩

/-- C1: first delivery of `sub-1` starts processing (record created, two
generation tasks enqueued); a second delivery of the identical submission
creates no second record and schedules no further work, but — because line 429
subscripts the list `data.data` with the string key `"status"`, raising
`TypeError` — it is answered with HTTP 500 instead of the intended
`Already processing` outcome. -/
theorem webhook_replay_returns_500 :
    (handle_tally_webhook [] samplePayload).1 = .ok "Processing started" ∧
    (handle_tally_webhook [] samplePayload).2.2.length = 2 ∧
    (handle_tally_webhook (handle_tally_webhook [] samplePayload).2.1
      samplePayload).1 = .httpError 500 ∧
    (handle_tally_webhook (handle_tally_webhook [] samplePayload).2.1
      samplePayload).2.1 = (handle_tally_webhook [] samplePayload).2.1 ∧
    (handle_tally_webhook (handle_tally_webhook [] samplePayload).2.1
      samplePayload).2.2 = [] := by
  decide

/-- Applying an update payload overwrites the status column. -/
lemma applyPatch_status (p : Patch) (x : Row) : (applyPatch p x).status = p.status := rfl

/-- A row of an updated table is an untouched row of the old table or the
patched image of one. -/
lemma mem_update_eq_cases {table : List Row} {sid : String} {p : Patch} {r : Row}
    (h : r ∈ update_eq table sid p) : r ∈ table ∨ ∃ x ∈ table, r = applyPatch p x := by
  unfold update_eq at h
  rcases List.mem_map.mp h with ⟨x, hx, hfx⟩
  by_cases hc : (x.submission_id == sid) = true
  · right
    refine ⟨x, hx, ?_⟩
    rw [← hfx]
    simp [hc]
  · left
    rw [← hfx]
    simp only [hc, if_false]
    exact hx

/-- Normal form of one task run: if the single write attempt fails the table is
unchanged; otherwise exactly one update is applied, chosen by the provider
outcome, the extracted text and the prompt type. -/
lemma runVariant_table_eq (sid prompt prompt_type : String)
    (gemini : String → ProviderOutcome) (fail : Nat → Bool) (table : List Row) :
    (runVariant sid prompt prompt_type gemini fail table).table =
      if fail 0 then table else
      match gemini prompt with
      | .raise msg => update_eq table sid (exceptionPatch (.providerError msg))
      | .response r =>
        match extract_result_text r with
        | some text =>
          if prompt_type == "consulting" then
            update_eq table sid (succPatchConsulting text)
          else update_eq table sid (succPatchClient text)
        | none => update_eq table sid markerPatch := by
  unfold runVariant generate_gemini_response geminiTryBody tryUpdate
  cases hgem : gemini prompt with
  | raise msg => by_cases hf : fail 0 <;> simp [hf]
  | response r =>
    cases hx : extract_result_text r with
    | some text =>
      by_cases hpt : (prompt_type == "consulting") = true <;>
        by_cases hf : fail 0 <;> simp [hpt, hf, hx]
    | none => by_cases hf : fail 0 <;> simp [hf, hx]

/-- C2 counterexample: with record `sub-1` created, the client variant
completes with Success (status becomes `success`), and then the consulting
variant completes with an empty provider response: its terminal write
overwrites the status column, so the stored status moves Success → Error,
which the claim rules out. -/
theorem success_overwritten_by_later_error :
    (∃ r ∈ stepTable (runEvents [.accept samplePayload])
        (.task "sub-1" "p" "Unknown" (geminiText "texto") noFail),
      r.submission_id = "sub-1" ∧ r.status = STATUS_SUCCESS) ∧
    (∃ r ∈ stepTable (stepTable (runEvents [.accept samplePayload])
          (.task "sub-1" "p" "Unknown" (geminiText "texto") noFail))
        (.task "sub-1" "p" "consulting" geminiEmpty noFail),
      r.submission_id = "sub-1" ∧ r.status = STATUS_ERROR) ∧
    (∀ r ∈ stepTable (stepTable (runEvents [.accept samplePayload])
          (.task "sub-1" "p" "Unknown" (geminiText "texto") noFail))
        (.task "sub-1" "p" "consulting" geminiEmpty noFail),
      r.status ≠ STATUS_SUCCESS) := by
  decide

/-- C2 amended: what does hold is one-sided: a task completion never moves a
row back to `processing` — every row of the table after a `RunVariant`
completion is either an untouched row of the old table or carries a terminal
status (`success` or `error`). The converse direction fails: a later variant
overwrites an earlier terminal status (last writer wins), as the
counterexample shows. -/
theorem task_never_regresses_to_processing (table : List Row)
    (sid prompt prompt_type : String) (gemini : String → ProviderOutcome)
    (fail : Nat → Bool) (r : Row)
    (hr : r ∈ stepTable table (.task sid prompt prompt_type gemini fail)) :
    r ∈ table ∨ r.status = STATUS_SUCCESS ∨ r.status = STATUS_ERROR := by
  have heq := runVariant_table_eq sid prompt prompt_type gemini fail table
  simp only [stepTable] at hr
  rw [heq] at hr
  clear heq
  split at hr
  · exact Or.inl hr
  · split at hr
    · rcases mem_update_eq_cases hr with h | ⟨x, _, rfl⟩
      · exact Or.inl h
      · exact Or.inr (Or.inr rfl)
    · split at hr
      · split at hr
        · rcases mem_update_eq_cases hr with h | ⟨x, _, rfl⟩
          · exact Or.inl h
          · exact Or.inr (Or.inl rfl)
        · rcases mem_update_eq_cases hr with h | ⟨x, _, rfl⟩
          · exact Or.inl h
          · exact Or.inr (Or.inl rfl)
      · rcases mem_update_eq_cases hr with h | ⟨x, _, rfl⟩
        · exact Or.inl h
        · exact Or.inr (Or.inr rfl)

/-- The row `sub-1` after a successful client-variant write of `texto`. -/
def row0succ : Row :=
  { submission_id := "sub-1", status := STATUS_SUCCESS,
    result_client := some "texto", result_consulting := none,
    user_responses := "resumen", form_type := "Unknown" }

/-- Witness for the C2 theorem at a concrete input. -/
theorem task_never_regresses_to_processing_witness :
    row0succ ∈ stepTable [row0] (.task "sub-1" "p" "Unknown" (geminiText "texto") noFail) ∧
    (row0succ ∈ [row0] ∨ row0succ.status = STATUS_SUCCESS ∨ row0succ.status = STATUS_ERROR) :=
  ⟨by decide, task_never_regresses_to_processing [row0] "sub-1" "p" "Unknown"
    (geminiText "texto") noFail row0succ (by decide)⟩

/-- A response whose `.text` is the non-empty string `texto`. -/
def respTexto : GeminiResponse := { text := some "texto" }

/-- A response with no `.text` and no `.parts`. -/
def respEmpty : GeminiResponse := {}

/-- C3 counterexample: the client variant completes with Success, writing
`texto` into `result_client`; then the consulting variant completes with the
error outcome, whose write puts the sentinel into BOTH result slots. The final
record no longer holds the client text: the error write overwrote the sibling
slot, which the claim rules out. -/
theorem error_write_clobbers_sibling_slot :
    (∃ r ∈ (runVariant "sub-1" "p" "Unknown" (geminiText "texto") noFail [row0]).table,
      r.result_client = some "texto") ∧
    (∃ r ∈ (runVariant "sub-1" "p2" "consulting" geminiEmpty noFail
        (runVariant "sub-1" "p" "Unknown" (geminiText "texto") noFail [row0]).table).table,
      r.result_client = some GEMINI_ERROR_MARKER ∧
      r.result_consulting = some GEMINI_ERROR_MARKER) ∧
    (∀ r ∈ (runVariant "sub-1" "p2" "consulting" geminiEmpty noFail
        (runVariant "sub-1" "p" "Unknown" (geminiText "texto") noFail [row0]).table).table,
      r.result_client ≠ some "texto") := by
  decide

/-- C3 amended: only the SUCCESS outcome is slot-isolated — a consulting
success write leaves every `result_client` unchanged and a non-consulting
success write leaves every `result_consulting` unchanged — while the error
outcome writes the sentinel into both slots of the matching record,
overwriting whatever the sibling variant had stored there. -/
theorem slot_writes_amended :
    (∀ (table : List Row) (sid prompt : String) (resp : GeminiResponse)
        (fail : Nat → Bool) (text : String),
        extract_result_text resp = some text →
        ∀ i : Nat,
          Option.map Row.result_client
            ((runVariant sid prompt "consulting" (fun _ => .response resp)
              fail table).table.get? i)
          = Option.map Row.result_client (table.get? i)) ∧
    (∀ (table : List Row) (sid prompt prompt_type : String) (resp : GeminiResponse)
        (fail : Nat → Bool) (text : String),
        (prompt_type == "consulting") = false →
        extract_result_text resp = some text →
        ∀ i : Nat,
          Option.map Row.result_consulting
            ((runVariant sid prompt prompt_type (fun _ => .response resp)
              fail table).table.get? i)
          = Option.map Row.result_consulting (table.get? i)) ∧
    (∀ (table : List Row) (sid prompt prompt_type : String) (resp : GeminiResponse)
        (fail : Nat → Bool),
        extract_result_text resp = none → fail 0 = false →
        ∀ r ∈ table, r.submission_id = sid →
          applyPatch markerPatch r ∈
            (runVariant sid prompt prompt_type (fun _ => .response resp)
              fail table).table ∧
          (applyPatch markerPatch r).result_client = some GEMINI_ERROR_MARKER ∧
          (applyPatch markerPatch r).result_consulting = some GEMINI_ERROR_MARKER) := by
  refine ⟨?_, ?_, ?_⟩
  · intro table sid prompt resp fail text hx i
    rw [runVariant_table_eq]
    by_cases hf : fail 0
    · simp [hf]
    · simp only [hf, Bool.false_eq_true, if_false, hx, beq_self_eq_true, if_true]
      unfold update_eq
      rw [List.get?_map]
      cases h : table.get? i with
      | none => rfl
      | some x =>
        show some (if (x.submission_id == sid) = true then
          applyPatch (succPatchConsulting text) x else x).result_client
          = some x.result_client
        split <;> rfl
  · intro table sid prompt prompt_type resp fail text hpt hx i
    rw [runVariant_table_eq]
    by_cases hf : fail 0
    · simp [hf]
    · simp only [hf, Bool.false_eq_true, if_false, hx, hpt]
      unfold update_eq
      rw [List.get?_map]
      cases h : table.get? i with
      | none => rfl
      | some x =>
        show some (if (x.submission_id == sid) = true then
          applyPatch (succPatchClient text) x else x).result_consulting
          = some x.result_consulting
        split <;> rfl
  · intro table sid prompt prompt_type resp fail hx hf r hr hsid
    refine ⟨?_, rfl, rfl⟩
    rw [runVariant_table_eq]
    simp only [hf, Bool.false_eq_true, if_false, hx]
    unfold update_eq
    have hc : (r.submission_id == sid) = true := by simp [hsid]
    have h2 := List.mem_map_of_mem
      (fun x => if x.submission_id == sid then applyPatch markerPatch x else x) hr
    simp only [hc, if_true] at h2
    exact h2

/-- Witness for the C3 amended theorem at concrete inputs: a consulting
success write on `row0` preserves `result_client`, and an empty-response
write on `row0` lands the sentinel in both slots. -/
theorem slot_writes_amended_witness :
    (Option.map Row.result_client
      ((runVariant "sub-1" "p" "consulting" (fun _ => .response respTexto)
        noFail [row0]).table.get? 0)
      = Option.map Row.result_client ([row0].get? 0)) ∧
    (applyPatch markerPatch row0 ∈
      (runVariant "sub-1" "p" "Unknown" (fun _ => .response respEmpty)
        noFail [row0]).table ∧
      (applyPatch markerPatch row0).result_client = some GEMINI_ERROR_MARKER ∧
      (applyPatch markerPatch row0).result_consulting = some GEMINI_ERROR_MARKER) :=
  ⟨slot_writes_amended.1 [row0] "sub-1" "p" respTexto noFail "texto" (by decide) 0,
   slot_writes_amended.2.2 [row0] "sub-1" "p" "Unknown" respEmpty noFail
     (by decide) (by decide) row0 (by decide) (by decide)⟩

/-- C4 counterexample: after accepting `sub-1` (which enqueues BOTH variants)
and the completion of only the client variant, the stored record has status
Success while the requested consulting slot is still null — Success does not
imply that every requested slot is filled. -/
theorem success_with_null_sibling_slot :
    ∃ r ∈ runEvents [.accept samplePayload,
        .task "sub-1" "p" "Unknown" (geminiText "texto") noFail],
      r.status = STATUS_SUCCESS ∧ r.result_client = some "texto" ∧
      r.result_consulting = none := by
  decide

/-- The slot/status invariant that reachable records actually satisfy: an
Error record carries a non-null diagnostic in BOTH slots, and a Success record
carries non-null content in AT LEAST ONE slot. -/
def rowInv (r : Row) : Prop :=
  (r.status = STATUS_ERROR → r.result_client ≠ none ∧ r.result_consulting ≠ none) ∧
  (r.status = STATUS_SUCCESS → r.result_client ≠ none ∨ r.result_consulting ≠ none)

/-- A row patched by the exception write satisfies the invariant. -/
lemma rowInv_exceptionPatch (e : PyExc) (x : Row) :
    rowInv (applyPatch (exceptionPatch e) x) := by
  constructor
  · intro _
    exact ⟨by simp [applyPatch, exceptionPatch], by simp [applyPatch, exceptionPatch]⟩
  · intro hs
    rw [show (applyPatch (exceptionPatch e) x).status = STATUS_ERROR from rfl] at hs
    exact absurd hs (by decide)

/-- A row patched by the empty-response marker write satisfies the invariant. -/
lemma rowInv_markerPatch (x : Row) : rowInv (applyPatch markerPatch x) := by
  constructor
  · intro _
    exact ⟨by simp [applyPatch, markerPatch], by simp [applyPatch, markerPatch]⟩
  · intro hs
    rw [show (applyPatch markerPatch x).status = STATUS_ERROR from rfl] at hs
    exact absurd hs (by decide)

/-- A row patched by the client success write satisfies the invariant. -/
lemma rowInv_succPatchClient (t : String) (x : Row) :
    rowInv (applyPatch (succPatchClient t) x) := by
  constructor
  · intro hs
    rw [show (applyPatch (succPatchClient t) x).status = STATUS_SUCCESS from rfl] at hs
    exact absurd hs (by decide)
  · intro _
    exact Or.inl (by simp [applyPatch, succPatchClient])

/-- A row patched by the consulting success write satisfies the invariant. -/
lemma rowInv_succPatchConsulting (t : String) (x : Row) :
    rowInv (applyPatch (succPatchConsulting t) x) := by
  constructor
  · intro hs
    rw [show (applyPatch (succPatchConsulting t) x).status = STATUS_SUCCESS from rfl] at hs
    exact absurd hs (by decide)
  · intro _
    exact Or.inr (by simp [applyPatch, succPatchConsulting])

/-- A successful webhook body appends exactly one freshly inserted record with
status `processing`; a raising body leaves the table as it was. -/
lemma webhookTryBody_ok_table {table : List Row} {payload : TallyWebhookPayload}
    {res : AcceptResult × List Row × List BgTask}
    (h : webhookTryBody table payload = .ok res) :
    ∃ row : Row, res.2.1 = table ++ [row] ∧ row.status = STATUS_PROCESSING := by
  unfold webhookTryBody at h
  by_cases he : (selectRows table payload.data.submissionId).isEmpty
  · simp only [he, if_true] at h
    cases hd : detect_form_type payload with
    | error e2 =>
      simp only [hd] at h
      exact Except.noConfusion h
    | ok ft =>
      simp only [hd] at h
      cases hs : summarize_payload payload with
      | error e2 =>
        simp only [hs] at h
        exact Except.noConfusion h
      | ok resp =>
        simp only [hs, Except.ok.injEq] at h
        subst h
        exact ⟨_, rfl, rfl⟩
  · simp [he] at h

/-- The table after a webhook delivery: unchanged, or extended by one fresh
`processing` record. -/
lemma handle_table_cases (table : List Row) (payload : TallyWebhookPayload) :
    (handle_tally_webhook table payload).2.1 = table ∨
    ∃ row : Row, (handle_tally_webhook table payload).2.1 = table ++ [row] ∧
      row.status = STATUS_PROCESSING := by
  unfold handle_tally_webhook
  cases hb : webhookTryBody table payload with
  | error e => exact Or.inl rfl
  | ok res =>
    obtain ⟨row, htab, hst⟩ := webhookTryBody_ok_table hb
    exact Or.inr ⟨row, htab, hst⟩

/-- Every event preserves the slot/status invariant of all rows. -/
lemma stepTable_preserves_rowInv (table : List Row) (e : Event)
    (hInv : ∀ x ∈ table, rowInv x) : ∀ r ∈ stepTable table e, rowInv r := by
  intro r hr
  cases e with
  | accept payload =>
    simp only [stepTable] at hr
    rcases handle_table_cases table payload with h | ⟨row, htab, hst⟩
    · rw [h] at hr
      exact hInv r hr
    · rw [htab] at hr
      rcases List.mem_append.mp hr with h2 | h2
      · exact hInv r h2
      · rw [List.mem_singleton] at h2
        subst h2
        refine ⟨fun hs => ?_, fun hs => ?_⟩ <;> rw [hst] at hs <;>
          exact absurd hs (by decide)
  | task sid prompt prompt_type gemini fail =>
    simp only [stepTable] at hr
    rw [runVariant_table_eq] at hr
    split at hr
    · exact hInv r hr
    · split at hr
      · rcases mem_update_eq_cases hr with h | ⟨x, _, rfl⟩
        · exact hInv r h
        · exact rowInv_exceptionPatch _ x
      · split at hr
        · split at hr
          · rcases mem_update_eq_cases hr with h | ⟨x, _, rfl⟩
            · exact hInv r h
            · exact rowInv_succPatchConsulting _ x
          · rcases mem_update_eq_cases hr with h | ⟨x, _, rfl⟩
            · exact hInv r h
            · exact rowInv_succPatchClient _ x
        · rcases mem_update_eq_cases hr with h | ⟨x, _, rfl⟩
          · exact hInv r h
          · exact rowInv_markerPatch x

/-- C4 amended: in every table reachable from an empty store, an Error record
carries a non-null diagnostic in both result slots, and a Success record
carries non-null content in at least one result slot — but, as the
counterexample shows, not necessarily in every requested slot. -/
theorem reachable_record_slot_invariant (events : List Event) (r : Row)
    (hr : r ∈ runEvents events) : rowInv r := by
  suffices h : ∀ (table : List Row), (∀ x ∈ table, rowInv x) →
      ∀ x ∈ events.foldl stepTable table, rowInv x by
    exact h [] (by simp) r hr
  clear hr r
  induction events with
  | nil =>
    intro table hInv x hx
    exact hInv x hx
  | cons e es ih =>
    intro table hInv x hx
    simp only [List.foldl_cons] at hx
    exact ih (stepTable table e) (stepTable_preserves_rowInv table e hInv) x hx

/-- The record of `sub-1` after accept plus a successful client-variant write. -/
def rowSuccClient : Row :=
  { submission_id := "sub-1", status := STATUS_SUCCESS,
    result_client := some "texto", result_consulting := none,
    user_responses := "Respuestas:\n- Sector: Banking\n- Automation level: 6\n- Empresa: RSM",
    form_type := "Unknown" }

/-- Witness for the C4 amended theorem at a concrete reachable record. -/
theorem reachable_record_slot_invariant_witness :
    rowSuccClient ∈ runEvents [.accept samplePayload,
      .task "sub-1" "p" "Unknown" (geminiText "texto") noFail] ∧
    rowInv rowSuccClient :=
  ⟨by decide,
   reachable_record_slot_invariant
     [.accept samplePayload, .task "sub-1" "p" "Unknown" (geminiText "texto") noFail]
     rowSuccClient (by decide)⟩

/-- The interpolated exception diagnostic can never collide with the reserved
empty-response marker: the two strings already differ at their second
character, whatever the exception text is. -/
lemma error_interno_ne_marker (msg : String) :
    "Error interno: " ++ msg ≠ GEMINI_ERROR_MARKER := by
  intro h
  have h2 : ("Error interno: " ++ msg).data = GEMINI_ERROR_MARKER.data := by rw [h]
  rw [String.data_append] at h2
  have h3 := congrArg (fun l => l.get? 1) h2
  have h4 : ((("Error interno: " : String).data ++ msg.data).get? 1) = some 'r' := rfl
  have h5 : (GEMINI_ERROR_MARKER.data.get? 1) = some 'R' := rfl
  have h6 : (some 'r' : Option Char) = some 'R' := by
    rw [← h4, ← h5]
    exact h3
  exact absurd h6 (by decide)

/-- C5: the failure writes use reserved values, and the transport-exception
diagnostic is distinct from the generic empty-response marker. A provider
exception makes the task write `Error interno: msg` (with status Error) into
the result slots — a string that never equals `GEMINI_ERROR_MARKER` — while an
empty provider response writes exactly `GEMINI_ERROR_MARKER`, so a query after
an always-failing-transport provider sees the transport diagnostic, not the
empty-response marker. -/
theorem transport_sentinel_distinct_from_empty_marker :
    (∀ (table : List Row) (sid prompt prompt_type msg : String) (fail : Nat → Bool),
      fail 0 = false →
      ∀ r ∈ table, r.submission_id = sid →
        applyPatch (exceptionPatch (.providerError msg)) r ∈
          (runVariant sid prompt prompt_type (geminiRaise msg) fail table).table ∧
        (applyPatch (exceptionPatch (.providerError msg)) r).status = STATUS_ERROR ∧
        (applyPatch (exceptionPatch (.providerError msg)) r).result_client
          = some ("Error interno: " ++ msg) ∧
        "Error interno: " ++ msg ≠ GEMINI_ERROR_MARKER) ∧
    (∀ (table : List Row) (sid prompt prompt_type : String) (resp : GeminiResponse)
        (fail : Nat → Bool),
      extract_result_text resp = none → fail 0 = false →
      ∀ r ∈ table, r.submission_id = sid →
        applyPatch markerPatch r ∈
          (runVariant sid prompt prompt_type (fun _ => .response resp) fail table).table ∧
        (applyPatch markerPatch r).result_client = some GEMINI_ERROR_MARKER ∧
        (applyPatch markerPatch r).status = STATUS_ERROR) := by
  constructor
  · intro table sid prompt prompt_type msg fail hf r hr hsid
    refine ⟨?_, rfl, rfl, error_interno_ne_marker msg⟩
    rw [runVariant_table_eq]
    simp only [hf, Bool.false_eq_true, if_false, geminiRaise]
    unfold update_eq
    have hc : (r.submission_id == sid) = true := by simp [hsid]
    have h2 := List.mem_map_of_mem
      (fun x => if x.submission_id == sid then
        applyPatch (exceptionPatch (.providerError msg)) x else x) hr
    simp only [hc, if_true] at h2
    exact h2
  · intro table sid prompt prompt_type resp fail hx hf r hr hsid
    refine ⟨?_, rfl, rfl⟩
    rw [runVariant_table_eq]
    simp only [hf, Bool.false_eq_true, if_false, hx]
    unfold update_eq
    have hc : (r.submission_id == sid) = true := by simp [hsid]
    have h2 := List.mem_map_of_mem
      (fun x => if x.submission_id == sid then applyPatch markerPatch x else x) hr
    simp only [hc, if_true] at h2
    exact h2

/-- Witness for the C5 theorem at a concrete input. -/
theorem transport_sentinel_distinct_from_empty_marker_witness :
    (applyPatch (exceptionPatch (.providerError "timeout")) row0 ∈
      (runVariant "sub-1" "p" "Unknown" (geminiRaise "timeout") noFail [row0]).table ∧
     (applyPatch (exceptionPatch (.providerError "timeout")) row0).status = STATUS_ERROR ∧
     (applyPatch (exceptionPatch (.providerError "timeout")) row0).result_client
       = some ("Error interno: " ++ "timeout") ∧
     "Error interno: " ++ "timeout" ≠ GEMINI_ERROR_MARKER) ∧
    (applyPatch markerPatch row0 ∈
      (runVariant "sub-1" "p" "Unknown" (fun _ => .response respEmpty) noFail [row0]).table ∧
     (applyPatch markerPatch row0).result_client = some GEMINI_ERROR_MARKER ∧
     (applyPatch markerPatch row0).status = STATUS_ERROR) :=
  ⟨transport_sentinel_distinct_from_empty_marker.1 [row0] "sub-1" "p" "Unknown"
     "timeout" noFail (by decide) row0 (by decide) (by decide),
   transport_sentinel_distinct_from_empty_marker.2 [row0] "sub-1" "p" "Unknown"
     respEmpty noFail (by decide) (by decide) row0 (by decide) (by decide)⟩

deriving instance DecidableEq for Except

/-- The `data` object of a one-field submission `sub-2`. -/
def shortData : TallyResponseData :=
  { responseId := "resp-2", submissionId := "sub-2",
    fields := [sampleField "f1" "Sector" "Banking"] }

/-- A nonempty submission with fewer than three fields. -/
def shortPayload : TallyWebhookPayload :=
  { eventId := "ev-2", eventType := "FORM_RESPONSE", data := shortData }

/-- A field whose label is null. -/
def nullLabelField : TallyField :=
  { key := "f3", label := none, value := .vnull, type := "INPUT_TEXT",
    options := none }

/-- The `data` object of a three-field submission whose third field has a
null label. -/
def nullLabelData : TallyResponseData :=
  { responseId := "resp-3", submissionId := "sub-3",
    fields := [sampleField "f1" "A" "x", sampleField "f2" "B" "y", nullLabelField] }

/-- A three-field submission whose inspected field has a null label. -/
def nullLabelPayload : TallyWebhookPayload :=
  { eventId := "ev-3", eventType := "FORM_RESPONSE", data := nullLabelData }

/-- C6 counterexample: classification is NOT total — a nonempty submission
with fewer than three fields raises `IndexError` reading `fields[2]`, and one
whose third field has a null label raises `AttributeError` calling `.strip()`
on `None`; through the accept path the raise surfaces as an HTTP 500 with no
record created. -/
theorem detect_form_type_raises :
    detect_form_type shortPayload = .error .indexError ∧
    detect_form_type nullLabelPayload = .error .attributeError ∧
    (handle_tally_webhook [] shortPayload).1 = .httpError 500 ∧
    (handle_tally_webhook [] shortPayload).2.1 = [] := by
  decide

/-- C6 amended: on its non-raising domain the classification is total with
range {CFO_Form, Unknown}: an empty field list yields the default `Unknown`,
and whenever a third field exists and its label is non-null the result is
exactly `CFO_Form` or `Unknown`; outside that domain it raises. -/
theorem detect_form_type_wellformed_total (payload : TallyWebhookPayload) :
    (payload.data.fields = [] → detect_form_type payload = .ok "Unknown") ∧
    (∀ f : TallyField, payload.data.fields.get? 2 = some f →
      ∀ l : String, f.label = some l →
        detect_form_type payload = .ok "CFO_Form" ∨
        detect_form_type payload = .ok "Unknown") := by
  constructor
  · intro he
    unfold detect_form_type
    simp [he]
  · intro f hf l hl
    unfold detect_form_type
    cases hfs : payload.data.fields with
    | nil =>
      rw [hfs] at hf
      exact Option.noConfusion hf
    | cons a t =>
      rw [hfs] at hf
      simp only [hf, hl]
      by_cases hq : pyStrip l = "¿De qué sector es tu empresa o grupo?"
      · exact Or.inl (by simp [hq])
      · exact Or.inr (by simp [hq])

/-- Witness for the C6 amended theorem at a concrete well-formed payload. -/
theorem detect_form_type_wellformed_total_witness :
    detect_form_type samplePayload = .ok "CFO_Form" ∨
    detect_form_type samplePayload = .ok "Unknown" :=
  (detect_form_type_wellformed_total samplePayload).2
    (sampleField "f3" "Empresa" "RSM") (by decide) "Empresa" (by decide)

/-- C7 counterexample: a task whose single terminal-write attempt fails makes
exactly one attempt — not the at-least-two the claimed retry would require —
and leaves the record unchanged (still `processing`), the failure being only
logged. -/
theorem terminal_write_not_retried :
    (runVariant "sub-1" "p" "Unknown" geminiEmpty failAll [row0]).writeAttempts = 1 ∧
    (runVariant "sub-1" "p" "Unknown" geminiEmpty failAll [row0]).table = [row0] ∧
    ¬ 2 ≤ (runVariant "sub-1" "p" "Unknown" geminiEmpty failAll [row0]).writeAttempts := by
  decide

/-- C7 amended: every task run makes exactly one terminal-write attempt
against the store, and when that attempt fails the table is left unchanged:
the failure is only logged, never retried. -/
theorem terminal_write_single_attempt (sid prompt prompt_type : String)
    (gemini : String → ProviderOutcome) (fail : Nat → Bool) (table : List Row) :
    (runVariant sid prompt prompt_type gemini fail table).writeAttempts = 1 ∧
    (fail 0 = true →
      (runVariant sid prompt prompt_type gemini fail table).table = table) := by
  constructor
  · unfold runVariant generate_gemini_response geminiTryBody
    cases hgem : gemini prompt with
    | raise msg => simp [hgem]
    | response r =>
      cases hx : extract_result_text r with
      | some text =>
        by_cases hpt : (prompt_type == "consulting") = true <;> simp [hgem, hx, hpt]
      | none => simp [hgem, hx]
  · intro hf
    rw [runVariant_table_eq]
    simp [hf]

/-- Witness for the C7 amended theorem at a concrete input. -/
theorem terminal_write_single_attempt_witness :
    (runVariant "sub-1" "p" "consulting" geminiEmpty failAll [row0]).writeAttempts = 1 ∧
    (runVariant "sub-1" "p" "consulting" geminiEmpty failAll [row0]).table = [row0] :=
  ⟨(terminal_write_single_attempt "sub-1" "p" "consulting" geminiEmpty failAll [row0]).1,
   (terminal_write_single_attempt "sub-1" "p" "consulting" geminiEmpty failAll [row0]).2
     (by decide)⟩

/-- A multiple-choice field whose list value holds option ids, one resolvable
through the option set and one not. -/
def optionField : TallyField :=
  { key := "k1", label := some "Pregunta 1", value := .list [.s "opt_1", .s "opt_2"],
    type := "MULTIPLE_CHOICE", options := some [{ id := "opt_1", text := "Yes" }] }

/-- The `data` object of a submission holding only `optionField`. -/
def optionData : TallyResponseData :=
  { responseId := "resp-4", submissionId := "sub-4", fields := [optionField] }

/-- A submission holding only the multiple-choice field. -/
def optionPayload : TallyWebhookPayload :=
  { eventId := "ev-4", eventType := "FORM_RESPONSE", data := optionData }

set_option maxRecDepth 4000 in
/-- C8 counterexample: the prompt builder does NOT resolve option identifiers
through the option set: the list `["opt_1","opt_2"]` with option
`{id:"opt_1", text:"Yes"}` is rendered as the raw quoted `"opt_1,opt_2"`, not
with `opt_1` resolved to `Yes` as the claim requires. -/
theorem prompt_builder_ignores_options :
    generate_prompt optionPayload "sub-4" "Other"
      = "Analiza la siguiente respuesta de encuesta de un CFO\nProporciona un resumen o conclusión en formato markdown:\n\nPregunta: Pregunta 1 - Respuesta: \"opt_1,opt_2\"" ∧
    generate_prompt optionPayload "sub-4" "Other"
      ≠ "Analiza la siguiente respuesta de encuesta de un CFO\nProporciona un resumen o conclusión en formato markdown:\n\nPregunta: Pregunta 1 - Respuesta: \"Yes,opt_2\"" := by
  decide

/-- C8 amended: the prompt is the variant preamble followed by one
`Pregunta/Respuesta` segment per field in insertion order with no separator;
a null label renders as the token `null`, a null value as `null`, a scalar by
its `str` form, and a list as the double-quoted comma-joined `str` of its RAW
elements — option identifiers are not resolved in the prompt; resolution with
fallback to the raw id happens only in `summarize_payload`, the stored
human-readable rendering. -/
theorem prompt_rendering_amended :
    (∀ (payload : TallyWebhookPayload) (sid mode : String),
      generate_prompt payload sid mode =
        String.join (promptPreambleParts mode ++
          payload.data.fields.map renderPromptField)) ∧
    (∀ (k ty : String) (opts : Option (List TallyOption)) (vs : List Scalar),
      renderPromptField ⟨k, none, .list vs, ty, opts⟩
        = "Pregunta: " ++ "null" ++ " - Respuesta: "
            ++ ("\"" ++ String.intercalate "," (vs.map pyStrScalar) ++ "\"")) ∧
    (∀ (k ty l : String) (opts : Option (List TallyOption)),
      renderPromptField ⟨k, some l, .vnull, ty, opts⟩
        = "Pregunta: " ++ pyStrip l ++ " - Respuesta: " ++ "null") ∧
    (∀ (k ty l : String) (opts : Option (List TallyOption)) (v : Scalar),
      renderPromptField ⟨k, some l, .scalar v, ty, opts⟩
        = "Pregunta: " ++ pyStrip l ++ " - Respuesta: " ++ pyStrScalar v) ∧
    (∀ (k ty l : String), l ≠ "" →
      renderSummaryField ⟨k, some l, .list [.s "opt_1", .s "opt_2"], ty,
          some [⟨"opt_1", "Yes"⟩]⟩
        = .ok ("- " ++ l ++ ": " ++ "Yes, opt_2")) := by
  refine ⟨fun payload sid mode => rfl, fun k ty opts vs => ?_, fun k ty l opts => rfl,
    fun k ty l opts v => rfl, fun k ty l hl => ?_⟩
  · rfl
  · have hb : (l == "") = false := beq_eq_false_iff_ne.mpr hl
    unfold renderSummaryField
    simp only [hb, Bool.false_eq_true, if_false]
    rfl

/-- Witness for the C8 amended theorem at concrete inputs. -/
theorem prompt_rendering_amended_witness :
    generate_prompt optionPayload "sub-4" "CFO_Form" =
      String.join (promptPreambleParts "CFO_Form" ++
        optionPayload.data.fields.map renderPromptField) ∧
    renderSummaryField ⟨"k1", some "Pregunta 1", .list [.s "opt_1", .s "opt_2"],
        "MULTIPLE_CHOICE", some [⟨"opt_1", "Yes"⟩]⟩
      = .ok ("- " ++ "Pregunta 1" ++ ": " ++ "Yes, opt_2") :=
  ⟨prompt_rendering_amended.1 optionPayload "sub-4" "CFO_Form",
   prompt_rendering_amended.2.2.2.2 "k1" "MULTIPLE_CHOICE" "Pregunta 1" (by decide)⟩
